import Mathlib

/-!
Verification development for the procedural avatar animator
(`Avatar` component, per-frame `useFrame` routine).

The animator's per-frame update is embedded shallowly:

* `AvatarState` mirrors the `AvatarState` enum of `types.ts`.
* Vectors are triples of rationals (`Vec3`); the frame update is a pure
  function `update : AnimState → Directive → ℚ → AnimState` translated
  line by line from the `useFrame` body (locomotion with deadzone,
  stage-bounds clamp, body-position lerp, think-pose IK override, hand
  target smoothing).
* The elbow-bend computation (law of cosines, clamp, `acos`) is embedded
  over the reals, with `Real.arccos` for `Math.acos`.
-/

/-- The behavioural state enum (`types.ts`). -/
inductive AvatarState where
  | IDLE
  | WRITING
  | THINKING
  | GRABBING
  | WALKING
deriving DecidableEq, Repr

/-- A three-component vector over the rationals (model of `three.Vector3`
for the state-machine part of the animator). -/
structure Vec3 where
  x : ℚ
  y : ℚ
  z : ℚ
deriving DecidableEq, Repr

/-- Componentwise vector addition (`Vector3.add`). -/
def Vec3.add (a b : Vec3) : Vec3 := ⟨a.x + b.x, a.y + b.y, a.z + b.z⟩

/-- `three.MathUtils.lerp(x, y, t) = (1 − t)·x + t·y`. -/
def lerpQ (x y t : ℚ) : ℚ := (1 - t) * x + t * y

/-- `three.Vector3.lerp(v, alpha)`: each component is updated by
`this.x += (v.x − this.x) * alpha`. -/
def v3lerp (a v : Vec3) (alpha : ℚ) : Vec3 :=
  ⟨a.x + (v.x - a.x) * alpha, a.y + (v.y - a.y) * alpha, a.z + (v.z - a.z) * alpha⟩

/-- Squared Euclidean distance between two `Vec3`s (square of
`Vector3.distanceTo`; comparisons of distances are equivalent to
comparisons of squared distances). -/
def distSq (a b : Vec3) : ℚ :=
  (a.x - b.x) ^ 2 + (a.y - b.y) ^ 2 + (a.z - b.z) ^ 2

/-- The per-frame external input: `targetPosition` (hand target),
`lookAtTarget` (gaze target) — both nullable — and the behavioural state
(the `AvatarProps` consumed by `useFrame`). -/
structure Directive where
  targetPosition : Option Vec3
  lookAtTarget : Option Vec3
  state : AvatarState
deriving DecidableEq, Repr

/-- The animator-owned mutable state threaded across frames (the refs
`bodyTargetX`, `bodyPosition` (only `.x` is ever written), and
`currentHandTarget`). -/
structure AnimState where
  bodyTargetX : ℚ
  bodyPositionX : ℚ
  handCurrent : Vec3
deriving DecidableEq, Repr

/-- Initial values of the refs: `bodyTargetX = 0`, `bodyPosition = (0,0,0)`,
`currentHandTarget = (1, 1.5, 0)`. -/
def initState : AnimState :=
  { bodyTargetX := 0, bodyPositionX := 0, handCurrent := ⟨1, 1.5, 0⟩ }

/-- Locomotion: the new `bodyTargetX` before the stage-bounds clamp
(the branch on `targetPosition` / `lookAtTarget` and `state`). -/
def stepBodyTargetX (btx : ℚ) (d : Directive) : ℚ :=
  match d.targetPosition with
  | some tp =>
      if d.state = AvatarState.WRITING then
        -- Deadzone: only step when the hand reaches too far from centre.
        if |tp.x - 0.4 - btx| > 0.8 then tp.x - 0.4 else btx
      else if d.state = AvatarState.GRABBING then tp.x - 0.4
      else if d.state = AvatarState.THINKING then 0
      else btx
  | none =>
      match d.lookAtTarget with
      | some la => if d.state = AvatarState.IDLE then la.x * 0.3 else btx
      | none => btx

/-- Stage-bounds clamp: `Math.max(-3.2, Math.min(3.2, ·))`. -/
def clampStage (v : ℚ) : ℚ := max (-3.2) (min 3.2 v)

/-- Hand smoothing rate: 50 while `WRITING`, 20 while `GRABBING`,
6 otherwise. -/
def handLerpSpeed (s : AvatarState) : ℚ :=
  if s = AvatarState.WRITING then 50 else if s = AvatarState.GRABBING then 20 else 6

/-- Body smoothing rate: 4.0 while `WRITING`, 2.0 otherwise. -/
def bodyLerpSpeed (s : AvatarState) : ℚ :=
  if s = AvatarState.WRITING then 4.0 else 2.0

/-- The frame update with the (already clamped) elapsed time `dt` as a
parameter; mirrors the `useFrame` body in source order: locomotion branch,
stage-bounds clamp, body-position lerp (the group's world position),
rest-position anchor, think-pose override of the active IK target, and the
hand-target smoothing lerp. -/
def stepAnim (s : AnimState) (d : Directive) (dt : ℚ) : AnimState :=
  let btx := clampStage (stepBodyTargetX s.bodyTargetX d)
  let bpx := lerpQ s.bodyPositionX btx (dt * bodyLerpSpeed d.state)
  let rootPos : Vec3 := ⟨bpx, 0, 0⟩
  let restPos := (Vec3.mk 0.35 0.9 0.3).add rootPos
  let activePos := match d.targetPosition with
    | some tp => tp
    | none => restPos
  let activePos' := if d.state = AvatarState.THINKING then
      rootPos.add ⟨0.15, 1.6, 0.35⟩
    else activePos
  let hand := v3lerp s.handCurrent activePos' (dt * handLerpSpeed d.state)
  { bodyTargetX := btx, bodyPositionX := bpx, handCurrent := hand }

/-- The frame update as called with the raw frame `delta`:
`dt = Math.min(delta, 0.05)` and every later use of elapsed time in the
routine reads this `dt`. -/
def update (s : AnimState) (d : Directive) (delta : ℚ) : AnimState :=
  let dt := min delta 0.05
  stepAnim s d dt

/-- The smoothing target of the hand for one frame: the active IK position
after the think-pose override, exactly the second argument of the
`currentHandTarget.lerp` call. -/
def activeIKTarget (s : AnimState) (d : Directive) (delta : ℚ) : Vec3 :=
  let dt := min delta 0.05
  let btx := clampStage (stepBodyTargetX s.bodyTargetX d)
  let bpx := lerpQ s.bodyPositionX btx (dt * bodyLerpSpeed d.state)
  let rootPos : Vec3 := ⟨bpx, 0, 0⟩
  let restPos := (Vec3.mk 0.35 0.9 0.3).add rootPos
  let activePos := match d.targetPosition with
    | some tp => tp
    | none => restPos
  if d.state = AvatarState.THINKING then rootPos.add ⟨0.15, 1.6, 0.35⟩ else activePos

/-- Upper-arm bone length. -/
noncomputable def upperArmLen : ℝ := 0.7

/-- Forearm bone length. -/
noncomputable def lowerArmLen : ℝ := 0.75

/-- `maxReach = upperArmLen + lowerArmLen − 0.01 = 1.44`. -/
noncomputable def maxReach : ℝ := upperArmLen + lowerArmLen - 0.01

/-- Law-of-cosines value fed to `acos`:
`(L1² + L2² − min(dist, maxReach)²) / (2·L1·L2)`. -/
noncomputable def cosElbow (dist : ℝ) : ℝ :=
  (upperArmLen ^ 2 + lowerArmLen ^ 2 - min dist maxReach ^ 2) /
    (2 * upperArmLen * lowerArmLen)

/-- The clamp `Math.max(-1, Math.min(1, cosElbow))` applied before `acos`. -/
noncomputable def clampedCosElbow (dist : ℝ) : ℝ := max (-1) (min 1 (cosElbow dist))

/-- The elbow bend angle written to `rightForeArmGroup.rotation.x`:
`Math.acos` of the clamped cosine. -/
noncomputable def elbowAngle (dist : ℝ) : ℝ := Real.arccos (clampedCosElbow dist)

/-- Chalk visibility (the cylinder mesh attached to the right hand):
`visible={state === AvatarState.WRITING}`. -/
def chalkVisible (s : AvatarState) : Bool := decide (s = AvatarState.WRITING)


/-- One scalar component of `Vector3.lerp` under IEEE floating-point
semantics: `none` models a non-finite value (NaN or ±∞), and the update
`x += (v.x − x) · alpha` applied with a non-finite operand yields a
non-finite result. This models the `currentHandTarget.lerp(activePos, …)`
call when the directive's hand target carries a non-finite coordinate —
the frame routine applies no finiteness guard before that call. -/
def lerpNF (cur target : Option ℚ) (alpha : ℚ) : Option ℚ :=
  match cur, target with
  | some c, some t => some (c + (t - c) * alpha)
  | _, _ => none

/-! ## Helper lemmas -/

/-- `clampStage` is the identity on values already inside the stage bounds. -/
theorem clampStage_eq_self {v : ℚ} (h₁ : -3.2 ≤ v) (h₂ : v ≤ 3.2) :
    clampStage v = v := by
  rw [clampStage, min_eq_right h₂, max_eq_right h₁]

/-- The output of `clampStage` always lies inside the stage bounds. -/
theorem abs_clampStage_le (v : ℚ) : |clampStage v| ≤ 3.2 := by
  rw [abs_le]
  constructor
  · exact le_max_left _ _
  · exact max_le (by norm_num) (min_le_left _ _)

/-- The `bodyTargetX` field produced by one `update` is the stage clamp of
the locomotion result. -/
theorem update_bodyTargetX (s : AnimState) (d : Directive) (delta : ℚ) :
    (update s d delta).bodyTargetX = clampStage (stepBodyTargetX s.bodyTargetX d) := rfl

/-- One `update` moves `handCurrent` by a `Vector3.lerp` toward the frame's
active IK target, with factor `dt · handLerpSpeed`. -/
theorem update_handCurrent (s : AnimState) (d : Directive) (delta : ℚ) :
    (update s d delta).handCurrent =
      v3lerp s.handCurrent (activeIKTarget s d delta)
        (min delta 0.05 * handLerpSpeed d.state) := by
  obtain ⟨tp, la, st⟩ := d
  cases tp <;> rfl

/-- A `Vector3.lerp` by factor `α` scales the squared distance to the lerp
target by `(1 − α)²`. -/
theorem distSq_v3lerp (a v : Vec3) (α : ℚ) :
    distSq (v3lerp a v α) v = (1 - α) ^ 2 * distSq a v := by
  simp only [distSq, v3lerp]
  ring

/-- Squared distances are nonnegative. -/
theorem distSq_nonneg (a b : Vec3) : 0 ≤ distSq a b := by
  have hx := sq_nonneg (a.x - b.x)
  have hy := sq_nonneg (a.y - b.y)
  have hz := sq_nonneg (a.z - b.z)
  rw [distSq]
  linarith

/-- In the `WRITING` deadzone (ideal step within 0.8 of the current
`bodyTargetX`, which is inside stage bounds), one `update` leaves
`bodyTargetX` unchanged. -/
theorem update_writing_deadzone_hold (s : AnimState) (tp : Vec3)
    (la : Option Vec3) (delta : ℚ)
    (hb : |s.bodyTargetX| ≤ 3.2)
    (hdz : |tp.x - 0.4 - s.bodyTargetX| ≤ 0.8) :
    (update s ⟨some tp, la, AvatarState.WRITING⟩ delta).bodyTargetX =
      s.bodyTargetX := by
  rw [update_bodyTargetX]
  have hstep : stepBodyTargetX s.bodyTargetX ⟨some tp, la, AvatarState.WRITING⟩ =
      s.bodyTargetX := by
    simp only [stepBodyTargetX, if_pos rfl]
    rw [if_neg (not_lt.mpr hdz)]
    simp
  rw [hstep]
  rw [abs_le] at hb
  exact clampStage_eq_self hb.1 hb.2

/-! ## Claim theorems -/

/-- Exact value of `cosElbow` whenever the clamped distance equals
`maxReach`: `(0.7² + 0.75² − 1.44²) / (2·0.7·0.75) = −10211/10500`. -/
theorem cosElbow_at_maxReach {dist : ℝ} (h : maxReach ≤ dist) :
    cosElbow dist = -(10211 / 10500) := by
  rw [cosElbow, min_eq_right h, maxReach, upperArmLen, lowerArmLen]
  norm_num

/-- C1 counterexample: at `dist = maxReach` (hence ≥ maxReach) the elbow
bend angle is `acos(−10211/10500) ≈ 2.907`, not `0`. -/
theorem C1_counterexample : elbowAngle maxReach ≠ 0 := by
  have hc : clampedCosElbow maxReach = -(10211 / 10500) := by
    rw [clampedCosElbow, cosElbow_at_maxReach le_rfl,
      min_eq_right (by norm_num), max_eq_right (by norm_num)]
  rw [elbowAngle, hc, Ne, Real.arccos_eq_zero]
  norm_num

/-- C1 (amended): for every distance `dist ≥ maxReach` the elbow bend angle
equals the constant `acos(−10211/10500) ≈ 2.907` — the maximal bend under
the code's convention (which assigns `0` to `dist = 0`, not to full
extension), rather than the claimed `0`. -/
theorem C1_amended_elbow_at_maxReach {dist : ℝ} (h : maxReach ≤ dist) :
    elbowAngle dist = Real.arccos (-(10211 / 10500)) := by
  rw [elbowAngle, clampedCosElbow, cosElbow_at_maxReach h,
    min_eq_right (by norm_num), max_eq_right (by norm_num)]

/-- C1 witness: the amended claim instantiated at the concrete distance
`dist = 2 ≥ maxReach`. -/
theorem C1_witness :
    maxReach ≤ 2 ∧ elbowAngle 2 = Real.arccos (-(10211 / 10500)) :=
  ⟨by rw [maxReach, upperArmLen, lowerArmLen]; norm_num,
    C1_amended_elbow_at_maxReach
      (by rw [maxReach, upperArmLen, lowerArmLen]; norm_num)⟩

/-- C2: for every distance, the argument fed to `acos` is clamped into
`[−1, 1]`, and the resulting elbow angle lies in `[0, π]`. -/
theorem C2_clamped_acos_range (dist : ℝ) :
    -1 ≤ clampedCosElbow dist ∧ clampedCosElbow dist ≤ 1 ∧
    0 ≤ elbowAngle dist ∧ elbowAngle dist ≤ Real.pi :=
  ⟨le_max_left _ _,
    max_le (by norm_num) (min_le_left _ _),
    Real.arccos_nonneg _,
    Real.arccos_le_pi _⟩


/-- When the directive carries a hand target and the state is not
`THINKING`, the frame's hand-smoothing target is that hand target. -/
theorem activeIKTarget_some (s : AnimState) (tp : Vec3) (la : Option Vec3)
    (st : AvatarState) (delta : ℚ) (h : st ≠ AvatarState.THINKING) :
    activeIKTarget s ⟨some tp, la, st⟩ delta = tp := by
  simp [activeIKTarget, h]

/-- A `Vector3.lerp` with factor `0 ≤ α ≤ 2` does not increase the squared
distance to the lerp target. -/
theorem lerp_distSq_le (a v : Vec3) (α : ℚ) (h0 : 0 ≤ α) (h2 : α ≤ 2) :
    distSq (v3lerp a v α) v ≤ distSq a v := by
  rw [distSq_v3lerp]
  have hsq : (1 - α) ^ 2 ≤ 1 := by nlinarith
  have hd := distSq_nonneg a v
  nlinarith

/-- C3 counterexample: in `WRITING` (smoothing rate 50) with the admitted
elapsed time `dt = min(0.05, 0.05) = 0.05`, one update moves `handCurrent`
from squared distance 1 to squared distance 9/4 from its fixed hand target
(the lerp factor is `0.05 · 50 = 2.5`, overshooting past the target), so
the distance to the target is not non-increasing for every admitted `dt`. -/
theorem C3_counterexample :
    (1 / 20 : ℚ) ≤ 0.05 ∧
    distSq (update ⟨0, 0, ⟨0, 0, 0⟩⟩
        ⟨some ⟨1, 0, 0⟩, none, AvatarState.WRITING⟩ (1 / 20)).handCurrent
        ⟨1, 0, 0⟩ >
      distSq (⟨0, 0, 0⟩ : Vec3) ⟨1, 0, 0⟩ := by
  refine ⟨by norm_num, ?_⟩
  rw [update_handCurrent,
    activeIKTarget_some _ _ _ _ _ (by simp),
    show min (1 / 20 : ℚ) 0.05 * handLerpSpeed AvatarState.WRITING = 5 / 2 by
      rw [show handLerpSpeed AvatarState.WRITING = 50 from rfl]; norm_num]
  simp only [v3lerp, distSq]
  norm_num

/-- C3 (amended): the distance from `handCurrent` to the frame's smoothing
target is non-increasing under one `update` provided
`dt · handLerpSpeed ≤ 2` (with `dt = min delta 0.05`); e.g. at 60 fps
(`delta = 1/60`) this holds in every state, but `delta = 0.05` in
`WRITING` (rate 50) gives factor 2.5 and increases the distance. Stated on
squared distances, which order exactly as distances do. -/
theorem C3_amended_dist_nonincreasing (s : AnimState) (d : Directive)
    (delta : ℚ) (h0 : 0 ≤ delta)
    (h2 : min delta 0.05 * handLerpSpeed d.state ≤ 2) :
    distSq (update s d delta).handCurrent (activeIKTarget s d delta) ≤
      distSq s.handCurrent (activeIKTarget s d delta) := by
  rw [update_handCurrent]
  apply lerp_distSq_le _ _ _ _ h2
  apply mul_nonneg (le_min h0 (by norm_num))
  rw [handLerpSpeed]
  split
  · norm_num
  · split <;> norm_num

/-- C3 witness: the amended claim at the concrete 60 fps frame
(`delta = 1/60`, `WRITING`, hand target `(2, 1.5, −1.8)`). -/
theorem C3_witness :
    (0 : ℚ) ≤ 1 / 60 ∧
    min (1 / 60 : ℚ) 0.05 * handLerpSpeed AvatarState.WRITING ≤ 2 ∧
    distSq (update initState
        ⟨some ⟨2, 1.5, -1.8⟩, none, AvatarState.WRITING⟩ (1 / 60)).handCurrent
        (activeIKTarget initState
          ⟨some ⟨2, 1.5, -1.8⟩, none, AvatarState.WRITING⟩ (1 / 60)) ≤
      distSq initState.handCurrent
        (activeIKTarget initState
          ⟨some ⟨2, 1.5, -1.8⟩, none, AvatarState.WRITING⟩ (1 / 60)) := by
  have h2 : min (1 / 60 : ℚ) 0.05 * handLerpSpeed AvatarState.WRITING ≤ 2 := by
    rw [show handLerpSpeed AvatarState.WRITING = 50 from rfl,
      min_eq_left (by norm_num)]
    norm_num
  exact ⟨by norm_num, h2,
    C3_amended_dist_nonincreasing _ _ _ (by norm_num) h2⟩

/-- C4: in `WRITING`, if the current `bodyTargetX = b` is inside the stage
bounds (as every reachable value is, by the stage clamp) and the hand
target's `x` satisfies `|(x − 0.4) − b| ≤ 0.8` (the deadzone), then any
number of consecutive `update` calls fed that same hand target leave
`bodyTargetX` equal to `b`, whatever the per-frame `delta`s are. -/
theorem C4_deadzone_hold (s : AnimState) (tp : Vec3) (la : Option Vec3)
    (deltas : List ℚ)
    (hb : |s.bodyTargetX| ≤ 3.2)
    (hdz : |tp.x - 0.4 - s.bodyTargetX| ≤ 0.8) :
    (deltas.foldl
        (fun st dl => update st ⟨some tp, la, AvatarState.WRITING⟩ dl)
        s).bodyTargetX = s.bodyTargetX := by
  induction deltas generalizing s with
  | nil => rfl
  | cons dl rest ih =>
    rw [List.foldl_cons]
    have h1 := update_writing_deadzone_hold s tp la dl hb hdz
    rw [ih _ (by rw [h1]; exact hb) (by rw [h1]; exact hdz), h1]

/-- C4 witness: `b = 1`, hand target `x = 1.5` (ideal step `1.1`, inside
the deadzone), three frames with varying `delta`. -/
theorem C4_witness :
    |(1 : ℚ)| ≤ 3.2 ∧ |(1.5 : ℚ) - 0.4 - 1| ≤ 0.8 ∧
    (([1 / 60, 1 / 30, 1 / 2] : List ℚ).foldl
        (fun st dl => update st ⟨some ⟨1.5, 1, 0⟩, none, AvatarState.WRITING⟩ dl)
        ⟨1, 0, ⟨0, 0, 0⟩⟩).bodyTargetX = 1 :=
  ⟨by norm_num [abs_le], by norm_num [abs_le],
    C4_deadzone_hold ⟨1, 0, ⟨0, 0, 0⟩⟩ ⟨1.5, 1, 0⟩ none [1 / 60, 1 / 30, 1 / 2]
      (by norm_num [abs_le]) (by norm_num [abs_le])⟩

/-- C5 counterexample: from `bodyTargetX = 0`, the hand target `x = 5`
trips the deadzone (`|4.6 − 0| > 0.8`), but a single update sets
`bodyTargetX` to the stage bound `3.2`, not to `x − 0.4 = 4.6`. -/
theorem C5_counterexample :
    |(5 : ℚ) - 0.4 - 0| > 0.8 ∧
    (update ⟨0, 0, ⟨0, 0, 0⟩⟩
        ⟨some ⟨5, 1, 0⟩, none, AvatarState.WRITING⟩ (1 / 60)).bodyTargetX ≠
      5 - 0.4 := by
  have hdz : |(5 : ℚ) - 0.4| > 0.8 := by norm_num [lt_abs]
  refine ⟨by norm_num [lt_abs], ?_⟩
  rw [update_bodyTargetX,
    show stepBodyTargetX (0 : ℚ) ⟨some ⟨5, 1, 0⟩, none, AvatarState.WRITING⟩ =
      5 - 0.4 by simp [stepBodyTargetX, hdz],
    clampStage, min_eq_left (by norm_num), max_eq_right (by norm_num)]
  norm_num

/-- C5 (amended): in `WRITING`, if the hand target's `x` satisfies
`|(x − 0.4) − b| > 0.8`, a single update sets `bodyTargetX` to exactly
`clamp(x − 0.4, −3.2, 3.2)` — which equals `x − 0.4` whenever `x − 0.4`
lies within the stage bounds `[−3.2, 3.2]`. -/
theorem C5_amended_deadzone_step (s : AnimState) (tp : Vec3)
    (la : Option Vec3) (delta : ℚ)
    (hdz : |tp.x - 0.4 - s.bodyTargetX| > 0.8) :
    (update s ⟨some tp, la, AvatarState.WRITING⟩ delta).bodyTargetX =
        clampStage (tp.x - 0.4) ∧
      (|tp.x - 0.4| ≤ 3.2 → clampStage (tp.x - 0.4) = tp.x - 0.4) := by
  constructor
  · rw [update_bodyTargetX]
    have hstep : stepBodyTargetX s.bodyTargetX
        ⟨some tp, la, AvatarState.WRITING⟩ = tp.x - 0.4 := by
      simp [stepBodyTargetX, hdz]
    rw [hstep]
  · intro hin
    rw [abs_le] at hin
    exact clampStage_eq_self hin.1 hin.2

/-- C5 witness: `b = 0`, hand target `x = 1.5` (ideal step `1.1`, outside
the deadzone and inside the stage bounds). -/
theorem C5_witness :
    |(1.5 : ℚ) - 0.4 - 0| > 0.8 ∧
    ((update ⟨0, 0, ⟨0, 0, 0⟩⟩
        ⟨some ⟨1.5, 1, 0⟩, none, AvatarState.WRITING⟩ (1 / 60)).bodyTargetX =
          clampStage (1.5 - 0.4) ∧
      (|(1.5 : ℚ) - 0.4| ≤ 3.2 → clampStage (1.5 - 0.4) = 1.5 - 0.4)) :=
  ⟨by norm_num [lt_abs],
    C5_amended_deadzone_step ⟨0, 0, ⟨0, 0, 0⟩⟩ ⟨1.5, 1, 0⟩ none (1 / 60)
      (by norm_num [lt_abs])⟩

/-- C6: `bodyTargetX` lies within the stage bounds `[−3.2, 3.2]` after
every update call, for every sequence of directives and frame deltas and
from any starting state (in particular from the initial value 0): every
prefix of a run ends in an `update`, whose result is stage-clamped. -/
theorem C6_bodyTargetX_bounded (s : AnimState)
    (inputs : List (Directive × ℚ)) (d : Directive) (delta : ℚ) :
    |((inputs ++ [(d, delta)]).foldl
        (fun st p => update st p.1 p.2) s).bodyTargetX| ≤ 3.2 := by
  rw [List.foldl_append, List.foldl_cons, List.foldl_nil, update_bodyTargetX]
  exact abs_clampStage_le _

/-- C7 (supporting theorem for the code divergence): for every finite
current hand-coordinate and every lerp factor, smoothing toward a
non-finite target coordinate makes the stored coordinate non-finite —
i.e. the state is corrupted, not held at its previous (finite) value as
the claim requires. The frame routine has no finiteness check anywhere on
the directive's coordinates. -/
theorem C7_nan_propagates (c alpha : ℚ) :
    lerpNF (some c) none alpha = none ∧ lerpNF (some c) none alpha ≠ some c :=
  ⟨rfl, by simp [lerpNF]⟩

/-- C8: the update consumes the raw frame delta only through
`dt = min(delta, 0.05)`: the whole frame step equals the dt-parametric
step at `min delta 0.05`, and that effective dt never exceeds 0.05. -/
theorem C8_dt_clamped (s : AnimState) (d : Directive) (delta : ℚ) :
    update s d delta = stepAnim s d (min delta 0.05) ∧
      min delta 0.05 ≤ 0.05 :=
  ⟨rfl, min_le_right _ _⟩

/-- C9: in `THINKING` with any supplied hand target `tp`, the frame's
hand-smoothing target is the fixed think-pose offset `(0.15, 1.6, 0.35)`
added to the current root position `(bodyPositionX', 0, 0)` — the
right-hand side does not mention `tp`, so the hand target is ignored for
arm placement — and `bodyTargetX` is set to 0 regardless of `tp`. -/
theorem C9_thinking_override (s : AnimState) (tp : Vec3) (la : Option Vec3)
    (delta : ℚ) :
    activeIKTarget s ⟨some tp, la, AvatarState.THINKING⟩ delta =
      (Vec3.mk (lerpQ s.bodyPositionX 0 (min delta 0.05 * 2)) 0 0).add
        ⟨0.15, 1.6, 0.35⟩ ∧
    (update s ⟨some tp, la, AvatarState.THINKING⟩ delta).bodyTargetX = 0 := by
  have hstep : stepBodyTargetX s.bodyTargetX
      ⟨some tp, la, AvatarState.THINKING⟩ = 0 := by
    simp [stepBodyTargetX]
  have hclamp : clampStage 0 = 0 := clampStage_eq_self (by norm_num) (by norm_num)
  constructor
  · simp only [activeIKTarget, hstep, hclamp, bodyLerpSpeed, if_pos rfl]
    rw [if_neg (by simp : ¬(AvatarState.THINKING = AvatarState.WRITING))]
    norm_num
  · rw [update_bodyTargetX, hstep, hclamp]

/-- C10: the chalk implement attached to the right hand is visible exactly
when the state is `WRITING`; in every other state it is hidden. -/
theorem C10_chalk_visible_iff_writing (s : AvatarState) :
    chalkVisible s = true ↔ s = AvatarState.WRITING := by
  cases s <;> simp [chalkVisible]
